import Mathlib

/-!
Verification of the risk-classification core of the EmpowerHER dashboard
(`src/app.py`, together with the near-identical revision
`src/.ipynb_checkpoints/app-checkpoint.py`).

The classification core (app.py lines 126-162) turns a mapping of named
categorical selections into a single-row feature vector aligned to the
model's declared column order (`raw_df.reindex(columns=expected,
fill_value=0).astype(np.float32)`), scores it with a loaded XGBoost model
(`model.predict_proba(df_new)[0, 1]`), compares the probability against a
loaded threshold (`"High risk" if prob >= threshold else "Low risk"`) and
renders two display strings.

Embedding choices:
* A selection mapping (the `inputs` dict of app.py line 139) is an
  association list `List (String × Nat)`; the Python dict keys are unique
  and ordered, and `List.lookup` matches dict lookup on them.
* Integer codes are `Nat` (every declared domain code lies in 0..13).
* Probabilities and the threshold are `ℚ`.  The source's `np.float32`
  cast is exact on all values the aligned row can contain (proved below),
  so scoring the integer row directly is faithful.
* The serialized XGBoost model is abstracted to the two contracts the
  source uses: `get_booster().feature_names` and `predict_proba`
  restricted to the single row / positive class actually read at `[0, 1]`.
-/

/-- A selection mapping: named categorical fields to their integer codes,
mirroring the `inputs` dict built at app.py line 139. -/
abbrev Selection := List (String × Nat)

/-- The declared field domains of app.py lines 129-138: each field name with
the list of integer codes its selectbox offers (`list(opts.keys())`). -/
def fieldDomains : List (String × List Nat) :=
  [ ("age_group",         [1, 2, 3, 4, 5, 6, 7, 8, 9, 10, 11, 12, 13]),
    ("race_eth",          [1, 2, 3, 4, 5, 6]),
    ("age_menarche",      [0, 1, 2]),
    ("age_first_birth",   [0, 1, 2, 3, 4]),
    ("family_history",    [0, 1]),
    ("personal_biopsy",   [0, 1]),
    ("density",           [1, 2, 3, 4]),
    ("hormone_use",       [0, 1]),
    ("menopausal_status", [1, 2, 3]),
    ("bmi_group",         [1, 2, 3, 4]) ]

/-- The ten field names, in the order the `inputs` dict declares them. -/
def fieldNames : List String := fieldDomains.map Prod.fst

/-- Structural validity check: the selection binds exactly the declared
fields, in order, each to a code contained in that field's domain. -/
def validSelB : List (String × Nat) → List (String × List Nat) → Bool
  | [], [] => true
  | (c, v) :: s, (c2, d) :: ds => c == c2 && d.contains v && validSelB s ds
  | _, _ => false

/-- Validity of a user selection against the declared domains (app.py
line 128 constrains each selectbox to its domain's own keys, so every
selection the UI can produce is valid in this sense). -/
def ValidSelection (sel : Selection) : Prop := validSelB sel fieldDomains = true

instance (sel : Selection) : Decidable (ValidSelection sel) := by
  unfold ValidSelection; infer_instance

/-- The abstract model artifact, reduced to the two contracts the source
uses: the declared column order (`model.get_booster().feature_names`,
app.py line 152) and the positive-class probability of a single aligned
row (`model.predict_proba(df_new)[0, 1]`, app.py line 154). -/
structure XGBModel where
  feature_names : List String
  predict_proba : List Nat → ℚ

/-- The value the aligned frame holds for column `c`: the selection's code
when the column name is bound, else the `fill_value=0` of app.py line 153. -/
def colValue (sel : Selection) (c : String) : Nat := (sel.lookup c).getD 0

/-- The aligned single-row frame of app.py line 153:
`raw_df.reindex(columns=expected, fill_value=0)`, kept as (column, value)
pairs in the model's declared column order. -/
def df_new (sel : Selection) (expected : List String) : List (String × Nat) :=
  expected.map fun c => (c, colValue sel c)

/-- The numeric row handed to `predict_proba`: the values of `df_new` in
column order. -/
def featureRow (sel : Selection) (expected : List String) : List Nat :=
  (df_new sel expected).map Prod.snd

/-- The scored probability of app.py line 154:
`model.predict_proba(df_new)[0, 1]`. -/
def prob (m : XGBModel) (sel : Selection) : ℚ :=
  m.predict_proba (featureRow sel m.feature_names)

/-- The risk label of app.py line 155:
`"High risk" if prob >= threshold else "Low risk"`. -/
def risk_str (m : XGBModel) (threshold : ℚ) (sel : Selection) : String :=
  if prob m sel ≥ threshold then "High risk" else "Low risk"

/-- The banner icon of app.py line 156. -/
def icon (m : XGBModel) (threshold : ℚ) (sel : Selection) : String :=
  if risk_str m threshold sel = "High risk" then "⚠️" else "✅"

/-- Python's percent format with one decimal digit, applied to an exact
rational: the tenths-of-a-percent are rounded to the nearest integer (no
tie arises at any value this file evaluates it on). -/
def formatPct1 (q : ℚ) : String :=
  toString ((round (q * 1000)).toNat / 10) ++ "." ++
    toString ((round (q * 1000)).toNat % 10) ++ "%"

/-- Python's two-decimal fixed-point format, applied to an exact
non-negative rational. -/
def formatFix2 (q : ℚ) : String :=
  toString ((round (q * 100)).toNat / 100) ++ "." ++
    (if (round (q * 100)).toNat % 100 < 10
      then "0" ++ toString ((round (q * 100)).toNat % 100)
      else toString ((round (q * 100)).toNat % 100))

/-- The probability line of app.py line 158, a percent rendering of the
scored probability after the fixed prefix text. -/
def prob_line (m : XGBModel) (sel : Selection) : String :=
  "Predicted probability of breast cancer: " ++ formatPct1 (prob m sel)

/-- The risk banner of app.py lines 160/162: icon, label and the
two-decimal threshold. -/
def banner (m : XGBModel) (threshold : ℚ) (sel : Selection) : String :=
  icon m threshold sel ++ " " ++ risk_str m threshold sel ++
    " (threshold = " ++ formatFix2 threshold ++ ")"

/-- The navbar tab list of app.py line 60. -/
def tabs : List String := ["About", "Risk Insights", "Mind & Move"]

/-- Streamlit session state used by app.py: only `active_tab`
(lines 61-62, 94-95). -/
structure AppState where
  active_tab : String
deriving DecidableEq, Repr

/-- One user interaction: an optional navbar click (app.py lines 72-95 set
`active_tab` to the clicked tab name) and the current widget selections of
the risk form. -/
structure Interaction where
  navClick : Option String
  selections : Selection

/-- One synchronous rerun of the script for an interaction: update
`active_tab` from a navbar click if any (app.py lines 94-95), then, when
the active tab is "Risk Insights", run alignment, scoring and thresholding
(lines 151-155) and emit the probability and label. -/
def appStep (m : XGBModel) (threshold : ℚ) (s : AppState) (i : Interaction) :
    AppState × Option (ℚ × String) :=
  let s2 : AppState := match i.navClick with
    | some tb => ⟨tb⟩
    | none => s
  let out := if s2.active_tab = "Risk Insights"
    then some (prob m i.selections, risk_str m threshold i.selections)
    else none
  (s2, out)

/-- The models directory as the script sees it: each artifact file either
deserializes to its payload or is absent/unreadable. -/
structure ModelsDir where
  modelFile : Option XGBModel
  thresholdFile : Option ℚ

/-- Model of `joblib.load` (app.py lines 101-102): returns the
deserialized payload, raises when the file is absent or unreadable. -/
def joblib_load {α : Type} (f : Option α) : Except String α :=
  match f with
  | some a => Except.ok a
  | none => Except.error "FileNotFoundError"

/-- Whether an `Except` computation carries a value. -/
def exceptOk {ε α : Type} : Except ε α → Bool
  | Except.ok _ => true
  | Except.error _ => false

/-- A full script run: both artifacts are loaded at module top level
(app.py lines 100-102) before any tab content renders; a load failure
raises and aborts the rerun before any prediction is produced. -/
def runApp (fs : ModelsDir) (s : AppState) (i : Interaction) :
    Except String (AppState × Option (ℚ × String)) := do
  let m ← joblib_load fs.modelFile
  let t ← joblib_load fs.thresholdFile
  return appStep m t s i

/-- A natural number is exactly representable in IEEE binary32 whenever it
does not exceed the 24-bit significand range, so casting it loses no
information. -/
def exactFloat32 (n : Nat) : Prop := n ≤ 2 ^ 24

namespace Checkpoint

/-!
The classification core of the earlier revision
`src/.ipynb_checkpoints/app-checkpoint.py` (lines 84-129), translated
independently of the main file: the same domain dicts (lines 88-97), the
same `inputs` keys (lines 100-111), the same `reindex`/`astype` alignment
(lines 114-116), the same scoring, thresholding and display strings
(lines 119-129).
-/

/-- The declared field domains of app-checkpoint.py lines 88-97. -/
def fieldDomains : List (String × List Nat) :=
  [ ("age_group",         [1, 2, 3, 4, 5, 6, 7, 8, 9, 10, 11, 12, 13]),
    ("race_eth",          [1, 2, 3, 4, 5, 6]),
    ("age_menarche",      [0, 1, 2]),
    ("age_first_birth",   [0, 1, 2, 3, 4]),
    ("family_history",    [0, 1]),
    ("personal_biopsy",   [0, 1]),
    ("density",           [1, 2, 3, 4]),
    ("hormone_use",       [0, 1]),
    ("menopausal_status", [1, 2, 3]),
    ("bmi_group",         [1, 2, 3, 4]) ]

/-- The aligned frame of app-checkpoint.py line 116. -/
def df_new (sel : Selection) (expected : List String) : List (String × Nat) :=
  expected.map fun c => (c, (sel.lookup c).getD 0)

/-- The numeric row handed to `predict_proba`. -/
def featureRow (sel : Selection) (expected : List String) : List Nat :=
  (df_new sel expected).map Prod.snd

/-- The scored probability of app-checkpoint.py line 119. -/
def prob (m : XGBModel) (sel : Selection) : ℚ :=
  m.predict_proba (featureRow sel m.feature_names)

/-- The risk label of app-checkpoint.py line 120. -/
def risk_str (m : XGBModel) (threshold : ℚ) (sel : Selection) : String :=
  if prob m sel ≥ threshold then "High risk" else "Low risk"

/-- The banner icon of app-checkpoint.py line 121. -/
def icon (m : XGBModel) (threshold : ℚ) (sel : Selection) : String :=
  if risk_str m threshold sel = "High risk" then "⚠️" else "✅"

/-- The probability line of app-checkpoint.py line 125. -/
def prob_line (m : XGBModel) (sel : Selection) : String :=
  "Predicted probability of breast cancer: " ++ formatPct1 (prob m sel)

/-- The risk banner of app-checkpoint.py lines 127/129. -/
def banner (m : XGBModel) (threshold : ℚ) (sel : Selection) : String :=
  icon m threshold sel ++ " " ++ risk_str m threshold sel ++
    " (threshold = " ++ formatFix2 threshold ++ ")"

end Checkpoint

/-! Concrete values used by the witnesses and the end-to-end scenario. -/

/-- The last nine bindings of the scenario selection of spec §8. -/
def c6rest : Selection :=
  [ ("race_eth", 1), ("age_menarche", 1), ("age_first_birth", 2),
    ("family_history", 1), ("personal_biopsy", 0), ("density", 2),
    ("hormone_use", 0), ("menopausal_status", 1), ("bmi_group", 2) ]

/-- The scenario selection of spec §8. -/
def c6sel : Selection := ("age_group", 6) :: c6rest

/-- The scenario selection with the age-group code changed to the valid
code 7; it differs from `c6sel` only in that one field. -/
def c6selAlt : Selection := ("age_group", 7) :: c6rest

/-- A fixture model declaring the ten field names as its columns and
scoring every row as 17/20 = 0.85. -/
def constModel : XGBModel := ⟨fieldNames, fun _ => 17 / 20⟩

/-! Helper lemmas shared by the claim theorems. -/

lemma mem_of_lookup_eq_some {c : String} {v : Nat} :
    ∀ {sel : Selection}, sel.lookup c = some v → (c, v) ∈ sel := by
  intro sel
  induction sel with
  | nil => intro h; simp [List.lookup] at h
  | cons p rest ih =>
    intro h
    obtain ⟨k, w⟩ := p
    by_cases hck : c = k
    · subst hck
      rw [List.lookup_cons] at h
      simp at h
      simp [h]
    · rw [List.lookup_cons, beq_false_of_ne hck] at h
      exact List.mem_cons_of_mem _ (ih h)

lemma domains_code_le : ∀ q ∈ fieldDomains, ∀ x ∈ q.2, x ≤ 13 := by decide

lemma validSelB_code_le :
    ∀ (doms : List (String × List Nat)) (sel : Selection),
      validSelB sel doms = true → (∀ q ∈ doms, ∀ x ∈ q.2, x ≤ 13) →
      ∀ p ∈ sel, p.2 ≤ 13 := by
  intro doms
  induction doms with
  | nil =>
    intro sel h _ p hp
    cases sel with
    | nil => simp at hp
    | cons a s => simp [validSelB] at h
  | cons q ds ih =>
    intro sel h hd p hp
    cases sel with
    | nil => simp at hp
    | cons a s =>
      obtain ⟨c, v⟩ := a
      obtain ⟨c2, d⟩ := q
      simp only [validSelB, Bool.and_eq_true] at h
      obtain ⟨⟨-, hvd⟩, hrest⟩ := h
      rcases List.mem_cons.mp hp with rfl | hp
      · have hvmem : v ∈ d := by simpa using hvd
        exact hd (c2, d) (List.mem_cons_self _ _) v hvmem
      · exact ih s hrest (fun r hr => hd r (List.mem_cons_of_mem _ hr)) p hp

lemma featureRow_mem_val {sel : Selection} {expected : List String} {v : Nat}
    (h : v ∈ featureRow sel expected) :
    v = 0 ∨ ∃ c w, sel.lookup c = some w ∧ v = w := by
  have h2 : v ∈ expected.map fun c => colValue sel c := by
    simpa [featureRow, df_new, List.map_map, Function.comp] using h
  obtain ⟨c, -, hcv⟩ := List.mem_map.mp h2
  cases hl : sel.lookup c with
  | none => left; rw [← hcv]; simp [colValue, hl]
  | some w =>
    right
    refine ⟨c, w, hl, ?_⟩
    rw [← hcv]; simp [colValue, hl]

/-- Claim C1: for every loaded model, threshold and valid selection, the
emitted label is "High risk" exactly when the probability is at least the
threshold, "Low risk" exactly when it is strictly below, a probability
equal to the threshold yields "High risk", and exactly one of the two
labels is emitted. -/
theorem claim1 (m : XGBModel) (t : ℚ) (sel : Selection)
    (_hv : ValidSelection sel) :
    (risk_str m t sel = "High risk" ↔ t ≤ prob m sel) ∧
    (risk_str m t sel = "Low risk" ↔ prob m sel < t) ∧
    (prob m sel = t → risk_str m t sel = "High risk") ∧
    ((risk_str m t sel = "High risk" ∧ risk_str m t sel ≠ "Low risk") ∨
     (risk_str m t sel = "Low risk" ∧ risk_str m t sel ≠ "High risk")) := by
  unfold risk_str
  by_cases h : prob m sel ≥ t
  · rw [if_pos h]
    refine ⟨⟨fun _ => h, fun _ => rfl⟩, ?_, fun _ => rfl,
      Or.inl ⟨rfl, by decide⟩⟩
    constructor
    · intro hh; exact absurd hh (by decide)
    · intro hlt; exact absurd h (not_le.mpr hlt)
  · rw [if_neg h]
    have hlt : prob m sel < t := not_le.mp h
    refine ⟨?_, ⟨fun _ => hlt, fun _ => rfl⟩, ?_, Or.inr ⟨rfl, by decide⟩⟩
    · constructor
      · intro hh; exact absurd hh (by decide)
      · intro hle; exact absurd hle h
    · intro heq; exact absurd (le_of_eq heq.symm) h

/-- Concrete instance of C1: the fixture model scoring 0.85 against
threshold 0.5 labels the scenario selection "High risk". -/
theorem claim1_witness : risk_str constModel (1 / 2) c6sel = "High risk" := by
  have h : (1 : ℚ) / 2 ≤ prob constModel c6sel := by
    show (1 : ℚ) / 2 ≤ 17 / 20
    norm_num
  exact (claim1 constModel (1 / 2) c6sel (by decide)).1.mpr h

/-- Claim C2: for every selection mapping and expected-column list, the
aligned frame's columns are exactly the expected list in order and count,
and any user field whose name is not expected is silently dropped. -/
theorem claim2 (sel : Selection) (expected : List String) :
    (df_new sel expected).map Prod.fst = expected ∧
    (featureRow sel expected).length = expected.length ∧
    ∀ f v, (f, v) ∈ sel → f ∉ expected →
      ∀ w, (f, w) ∉ df_new sel expected := by
  refine ⟨?_, ?_, ?_⟩
  · have hcomp : Prod.fst ∘ (fun c => (c, colValue sel c)) = id := rfl
    simp [df_new, List.map_map, hcomp]
  · simp [featureRow, df_new]
  · intro f v _ hnot w hw
    have h2 : (f, w) ∈ expected.map fun c => (c, colValue sel c) := hw
    obtain ⟨c, hc, hcfw⟩ := List.mem_map.mp h2
    have hcf : c = f := congrArg Prod.fst hcfw
    exact hnot (hcf ▸ hc)

/-- Concrete instance of C2: aligning a selection carrying the extra field
"extra_field" against the ten declared columns yields exactly those
columns, and the extra field is dropped. -/
theorem claim2_witness :
    (df_new (("extra_field", 5) :: c6sel) fieldNames).map Prod.fst =
      fieldNames ∧
    ("extra_field", (5 : Nat)) ∉ df_new (("extra_field", 5) :: c6sel)
      fieldNames := by
  refine ⟨(claim2 (("extra_field", 5) :: c6sel) fieldNames).1, ?_⟩
  exact (claim2 (("extra_field", 5) :: c6sel) fieldNames).2.2
    "extra_field" 5 (by decide) (by decide) 5

/-- Claim C3: each expected column appears in the aligned frame with the
selection's code when its name is bound and with exactly 0 when it is
absent from the selection mapping. -/
theorem claim3 (sel : Selection) (expected : List String) (c : String)
    (hc : c ∈ expected) :
    (c, colValue sel c) ∈ df_new sel expected ∧
    (sel.lookup c = none → colValue sel c = 0) ∧
    ∀ v, sel.lookup c = some v → colValue sel c = v := by
  refine ⟨List.mem_map.mpr ⟨c, hc, rfl⟩, ?_, ?_⟩
  · intro h; simp [colValue, h]
  · intro v h; simp [colValue, h]

/-- Concrete instance of C3: in the scenario selection the bound column
"age_group" carries its selected code 6, and a column "unknown_col" absent
from the mapping carries exactly 0. -/
theorem claim3_witness :
    ("age_group", colValue c6sel "age_group") ∈ df_new c6sel fieldNames ∧
    colValue c6sel "age_group" = 6 ∧
    colValue c6sel "unknown_col" = 0 := by
  refine ⟨(claim3 c6sel fieldNames "age_group" (by decide)).1, ?_, ?_⟩
  · exact (claim3 c6sel fieldNames "age_group" (by decide)).2.2 6 (by decide)
  · exact (claim3 c6sel ["unknown_col"] "unknown_col" (by decide)).2.1
      (by decide)

/-- Claim C4: one script rerun is a pure function of the interaction and
the loaded model/threshold, and repeating it from the state it produced
changes nothing: the same probability and label are emitted again and the
session state is unchanged. -/
theorem claim4 (m : XGBModel) (t : ℚ) (s : AppState) (i : Interaction) :
    appStep m t (appStep m t s i).1 i = appStep m t s i := by
  rcases i with ⟨nav, sels⟩
  cases nav <;> rfl

/-- Claim C5: two selections that agree on every field other than `f`
produce aligned frames that agree at every column not named `f`. -/
theorem claim5 (sel1 sel2 : Selection) (f : String) (expected : List String)
    (_hv1 : ValidSelection sel1) (_hv2 : ValidSelection sel2)
    (hdiff : ∀ c, c ≠ f → sel1.lookup c = sel2.lookup c) :
    ∀ (i : Nat) (c : String), expected[i]? = some c → c ≠ f →
      (df_new sel1 expected)[i]? = (df_new sel2 expected)[i]? := by
  intro i c hc hcf
  simp [df_new, List.getElem?_map, hc, colValue, hdiff c hcf]

/-- Concrete instance of C5: changing the scenario selection's age-group
code from 6 to the valid code 7 leaves the "race_eth" column (position 1)
of the aligned frame unchanged. -/
theorem claim5_witness :
    (df_new c6sel fieldNames)[1]? = (df_new c6selAlt fieldNames)[1]? := by
  have hdiff : ∀ c, c ≠ "age_group" →
      c6sel.lookup c = c6selAlt.lookup c := by
    intro c hcn
    have hb : (c == "age_group") = false := beq_false_of_ne hcn
    simp [c6sel, c6selAlt, List.lookup_cons, hb]
  exact claim5 c6sel c6selAlt "age_group" fieldNames (by decide) (by decide)
    hdiff 1 "race_eth" (by decide) (by decide)

/-- Claim C6: on the scenario selection, a model scoring the aligned row
at 0.85 yields "High risk" against threshold 0.82 with displayed
probability "85.0%", and "Low risk" against threshold 0.90. -/
theorem claim6 (m : XGBModel) (hm : prob m c6sel = 17 / 20) :
    risk_str m (41 / 50) c6sel = "High risk" ∧
    prob_line m c6sel = "Predicted probability of breast cancer: 85.0%" ∧
    risk_str m (9 / 10) c6sel = "Low risk" := by
  have hround : round ((17 : ℚ) / 20 * 1000) = 850 := by norm_num [round_eq]
  refine ⟨?_, ?_, ?_⟩
  · unfold risk_str
    rw [hm, if_pos (by norm_num : (17 : ℚ) / 20 ≥ 41 / 50)]
  · unfold prob_line formatPct1
    rw [hm, hround]
    rfl
  · unfold risk_str
    rw [hm, if_neg (by norm_num : ¬(17 : ℚ) / 20 ≥ 9 / 10)]

/-- Concrete instance of C6 on the fixture model that scores every row
as 0.85. -/
theorem claim6_witness :
    risk_str constModel (41 / 50) c6sel = "High risk" ∧
    prob_line constModel c6sel =
      "Predicted probability of breast cancer: 85.0%" ∧
    risk_str constModel (9 / 10) c6sel = "Low risk" :=
  claim6 constModel rfl

/-- Claim C7: a script run serves a prediction exactly when both the model
artifact and the threshold artifact load; if either is absent or
unreadable the run raises before any prediction is produced, with no
fallback path. -/
theorem claim7 (fs : ModelsDir) (s : AppState) (i : Interaction) :
    exceptOk (runApp fs s i) =
      (fs.modelFile.isSome && fs.thresholdFile.isSome) := by
  rcases fs with ⟨mf, tf⟩
  cases mf <;> cases tf <;> rfl

/-- Claim C8: feature alignment is total and non-rejecting: every
selection mapping and expected-column list yields a full-width vector, and
with both artifacts loaded a script run always succeeds, whatever the
selections, emitting no error. -/
theorem claim8 (sel : Selection) (expected : List String) (m : XGBModel)
    (t : ℚ) (s : AppState) (i : Interaction) :
    (featureRow sel expected).length = expected.length ∧
    runApp ⟨some m, some t⟩ s i = Except.ok (appStep m t s i) :=
  ⟨by simp [featureRow, df_new], rfl⟩

/-- Claim C9: the classification core of `src/app.py` and the one of the
checkpoint revision `src/.ipynb_checkpoints/app-checkpoint.py` agree on
the declared domains, the aligned frame and row, the probability, the
label and both displayed strings, for every model, threshold and
selection. -/
theorem claim9 (m : XGBModel) (t : ℚ) (sel : Selection) :
    Checkpoint.fieldDomains = fieldDomains ∧
    Checkpoint.df_new sel m.feature_names = df_new sel m.feature_names ∧
    Checkpoint.featureRow sel m.feature_names =
      featureRow sel m.feature_names ∧
    Checkpoint.prob m sel = prob m sel ∧
    Checkpoint.risk_str m t sel = risk_str m t sel ∧
    Checkpoint.prob_line m sel = prob_line m sel ∧
    Checkpoint.banner m t sel = banner m t sel :=
  ⟨rfl, rfl, rfl, rfl, rfl, rfl, rfl⟩

/-- Claim C10: for a valid selection, every entry of the aligned feature
row lies between 0 and 13, hence is exactly representable in IEEE
binary32, so the source's `astype(np.float32)` cast loses no
information. -/
theorem claim10 (sel : Selection) (hv : ValidSelection sel)
    (expected : List String) :
    ∀ v ∈ featureRow sel expected, v ≤ 13 ∧ exactFloat32 v := by
  intro v hvmem
  have hb : v ≤ 13 := by
    rcases featureRow_mem_val hvmem with h0 | ⟨c, w, hl, hw⟩
    · simp [h0]
    · subst hw
      exact validSelB_code_le fieldDomains sel hv domains_code_le (c, v)
        (mem_of_lookup_eq_some hl)
  refine ⟨hb, ?_⟩
  show v ≤ 2 ^ 24
  exact le_trans hb (by norm_num)

/-- Concrete instance of C10: the scenario selection's age-group entry 6
of the aligned row is within bounds and exact in binary32. -/
theorem claim10_witness : (6 : Nat) ≤ 13 ∧ exactFloat32 6 :=
  claim10 c6sel (by decide) fieldNames 6 (by decide)
